import Mathlib

/-!
Shallow embedding of `src/my_model/yolo_detect.py` (SmartRoadDivider /
ambulance path optimization).  Pure fragments of the script become Lean
functions; the filesystem, the serial device and the capture library are
modelled as explicit inputs; the effectful main loop becomes a trace-producing
function.  Machine strings are Lean `String`s handled at the `List Char`
level (Python indexes strings by code point, so `toList` matches Python
slicing); confidences are modelled as rationals.
-/

namespace AmbYolo

/-! Python primitive models -/

/-- Characters stripped by Python `int(str)` before parsing (ASCII whitespace
model of Python's whitespace stripping). -/
def isPyWs (c : Char) : Bool :=
  c = ' ' || c = '\t' || c = '\n' || c = '\r' || c = Char.ofNat 11 || c = Char.ofNat 12

/-- Strip leading and trailing Python whitespace from a character list. -/
def stripPyWs (l : List Char) : List Char :=
  ((l.dropWhile isPyWs).reverse.dropWhile isPyWs).reverse

/-- Numeric value of an ASCII digit character. -/
def digitVal (c : Char) : Nat := c.toNat - 48

/-- Inner loop of Python decimal-literal parsing: after a first digit, digits
may continue, with single underscores allowed only between digits. -/
def parseDigitsAux (acc : Nat) : List Char → Option Nat
  | [] => some acc
  | c :: rest =>
    if c = '_' then
      match rest with
      | [] => none
      | d :: rest2 =>
        if d.isDigit then parseDigitsAux (acc * 10 + digitVal d) rest2 else none
    else if c.isDigit then parseDigitsAux (acc * 10 + digitVal c) rest
    else none

/-- Parse a nonempty run of decimal digits with Python underscore rules. -/
def parseDigits : List Char → Option Nat
  | [] => none
  | c :: rest => if c.isDigit then parseDigitsAux (digitVal c) rest else none

/-- Model of Python `int(s)`: optional surrounding whitespace, optional sign,
then a nonempty digit run (underscores allowed between digits); `none` models
the `ValueError` raised on any other input. -/
def pyIntParse (s : String) : Option Int :=
  match stripPyWs s.toList with
  | [] => none
  | c :: rest =>
    if c = '+' then (parseDigits rest).map (fun n => (n : Int))
    else if c = '-' then (parseDigits rest).map (fun n => -(n : Int))
    else (parseDigits (c :: rest)).map (fun n => (n : Int))

/-- Model of Python `s[3:]` (slicing is by code points). -/
def pySlice3 (s : String) : String := String.mk (s.toList.drop 3)

/-- Extension part of Python `os.path.splitext(s)` (posix separator): the
suffix from the last dot of the basename, unless every character of the
basename before that dot is itself a dot. -/
def pysplitext_ext (s : String) : String :=
  let base : List Char := (s.toList.reverse.takeWhile (fun c => ¬ c = '/')).reverse
  let revBase : List Char := base.reverse
  let pre : List Char := revBase.takeWhile (fun c => ¬ c = '.')
  if pre.length = revBase.length then ""
  else
    let stem : List Char := revBase.drop (pre.length + 1)
    if stem.any (fun c => ¬ c = '.') then String.mk ('.' :: pre.reverse) else ""

/-- ASCII model of Python `str.lower` on one character. -/
def pyLowerChar (c : Char) : Char :=
  if 'A' ≤ c ∧ c ≤ 'Z' then Char.ofNat (c.toNat + 32) else c

/-- ASCII model of Python `str.lower`. -/
def pyLower (s : String) : String := String.mk (s.toList.map pyLowerChar)

/-- Model of Python `'usb' in s` restricted to a character list: contiguous
substring containment. -/
def listHasUsb : List Char → Bool
  | 'u' :: 's' :: 'b' :: _ => true
  | _ :: rest => listHasUsb rest
  | [] => false

/-- Python `'usb' in img_source`: substring containment test. -/
def usbSubstr (s : String) : Bool := listHasUsb s.toList

/-- Spec-side predicate: the string begins with `usb` immediately followed by
one or more decimal digits and nothing else. -/
def beginsWithUsbAndDigits (s : String) : Bool :=
  match s.toList with
  | 'u' :: 's' :: 'b' :: rest => !rest.isEmpty && rest.all Char.isDigit
  | _ => false

/-- Spec-side plain decimal value of a digit string. -/
def pyDigitsVal (s : String) : Int :=
  ((s.toList.foldl (fun a c => a * 10 + digitVal c) 0 : Nat) : Int)

/-! Source classification (yolo_detect.py lines 51-65) -/

/-- Recognized image extensions (line 52). -/
def img_ext_list : List String := [".jpg", ".jpeg", ".png", ".bmp"]

/-- Recognized video extensions (line 53). -/
def vid_ext_list : List String := [".avi", ".mov", ".mp4", ".mkv", ".wmv"]

/-- Source kinds assigned by the dispatch at lines 55-65. -/
inductive SourceType where
  | folder
  | image
  | video
  | usb (idx : Int)
deriving DecidableEq, Repr

/-- Result of running the classification block: a source type, a call to
`sys.exit(code)`, or an uncaught Python exception. -/
inductive ClassifyResult where
  | ok (t : SourceType)
  | exitCode (n : Nat)
  | pyError
deriving DecidableEq, Repr

/-- Abstract filesystem supplied to the script (results of `os.path.isdir`,
`os.path.isfile`, `os.path.exists`). -/
structure FS where
  isDir : String → Bool
  isFile : String → Bool
  pathExists : String → Bool

/-- Filesystem on which no path exists. -/
def fs0 : FS := ⟨fun _ => false, fun _ => false, fun _ => false⟩

/-- Embedding of lines 55-65: directory check, then file check with extension
dispatch, then the `'usb' in img_source` branch with `int(img_source[3:])`
(a failed parse is the uncaught `ValueError`), else a diagnostic
`sys.exit(0)`. -/
def classifySource (fs : FS) (img_source : String) : ClassifyResult :=
  if fs.isDir img_source then ClassifyResult.ok SourceType.folder
  else if fs.isFile img_source then
    let ext := pysplitext_ext img_source
    if img_ext_list.contains ext then ClassifyResult.ok SourceType.image
    else if vid_ext_list.contains ext then ClassifyResult.ok SourceType.video
    else ClassifyResult.exitCode 0
  else if usbSubstr img_source then
    match pyIntParse (pySlice3 img_source) with
    | some n => ClassifyResult.ok (SourceType.usb n)
    | none => ClassifyResult.pyError
  else ClassifyResult.exitCode 0

/-! Arduino signaling (yolo_detect.py lines 99-110) -/

/-- State of the serial handle: `unavailable` models `arduino is None`
(startup connection failure), `opened` a handle with `is_open` true,
`closed` a handle with `is_open` false. -/
inductive ArduinoState where
  | unavailable
  | opened
  | closed
deriving DecidableEq, Repr

/-- Observable events of `send_signal_to_arduino`: a write attempt (with its
outcome), the one-second sleep after a failed attempt, and the diagnostic
printed when the connection is not usable. -/
inductive SigEvent where
  | writeAttempt (ok : Bool)
  | sleepOne
  | diagUnavailable
deriving DecidableEq, Repr

/-- Embedding of the `for attempt in range(retries)` loop (lines 101-108):
`outcomes k` tells whether the k-th `arduino.write` succeeds (failure models
the exception caught by the `except` clause).  A successful write returns at
once; a failed write logs, sleeps one second and retries. -/
def attemptLoop (outcomes : Nat → Bool) : Nat → Nat → List SigEvent
  | _, 0 => []
  | start, n + 1 =>
    if outcomes start then [SigEvent.writeAttempt true]
    else SigEvent.writeAttempt false :: SigEvent.sleepOne ::
      attemptLoop outcomes (start + 1) n

/-- Embedding of `send_signal_to_arduino` (lines 99-110) as the trace of
events it performs.  The guard `if arduino and arduino.is_open` sends only on
an open handle; otherwise the function prints a diagnostic and returns. -/
def send_signal_to_arduino (st : ArduinoState) (outcomes : Nat → Bool)
    (retries : Nat) : List SigEvent :=
  match st with
  | ArduinoState.opened => attemptLoop outcomes 0 retries
  | _ => [SigEvent.diagUnavailable]

/-- Number of write attempts recorded in a signaling trace. -/
def attemptCount (tr : List SigEvent) : Nat :=
  (tr.filter fun e =>
    match e with
    | SigEvent.writeAttempt _ => true
    | _ => false).length

/-! Detection filtering and annotation (yolo_detect.py lines 135-156) -/

/-- One raw model detection: integer box corners, class index, confidence
(modelled as a rational in place of the float). -/
structure Detection where
  xmin : Int
  ymin : Int
  xmax : Int
  ymax : Int
  classidx : Nat
  conf : ℚ
deriving DecidableEq, Repr

/-- Fixed bounding-box palette (line 96). -/
def bbox_colors : List (Nat × Nat × Nat) :=
  [(164, 120, 87), (68, 148, 228), (93, 97, 209), (178, 182, 133)]

/-- Color selection at line 146: `bbox_colors[classidx % len(bbox_colors)]`. -/
def colorFor (classidx : Nat) : Nat × Nat × Nat :=
  bbox_colors.getD (classidx % bbox_colors.length) (0, 0, 0)

/-- Model of Python `int(x)` on a rational: truncation toward zero. -/
def pyTrunc (q : ℚ) : Int := if q < 0 then -Rat.floor (-q) else Rat.floor q

/-- Spec-side rounding to the nearest integer (for comparison with the
claimed label percentage). -/
def roundNearest (q : ℚ) : Int := Rat.floor (q + 1 / 2)

/-- Label string built at line 148: Python
f-string `classname: int(conf*100)%`. -/
def labelText (classname : String) (conf : ℚ) : String :=
  classname ++ ": " ++ toString (pyTrunc (conf * 100)) ++ "%"

/-- Drawing commands issued on the frame: `cv2.rectangle` and `cv2.putText`. -/
inductive DrawOp where
  | rect (xmin ymin xmax ymax : Int) (color : Nat × Nat × Nat)
  | text (s : String) (x y : Int) (color : Nat × Nat × Nat)
deriving DecidableEq, Repr

/-- Body of the detection loop (lines 138-152) for one detection: when
`conf > min_thresh`, draw the rectangle and the label above the top-left
corner, and report whether this detection's lowercased class name is
"ambulance". -/
def processDetection (labels : Nat → String) (min_thresh : ℚ) (d : Detection) :
    List DrawOp × Bool :=
  if min_thresh < d.conf then
    let classname := labels d.classidx
    let color := colorFor d.classidx
    ([DrawOp.rect d.xmin d.ymin d.xmax d.ymax color,
      DrawOp.text (labelText classname d.conf) d.xmin (d.ymin - 7) color],
     pyLower classname = "ambulance")
  else ([], false)

/-- The whole detection loop (lines 135-152): the flag starts false and the
detections are processed in order; drawing commands accumulate and the
ambulance flag is the disjunction over processed detections. -/
def processDetections (labels : Nat → String) (min_thresh : ℚ) :
    List Detection → List DrawOp × Bool
  | [] => ([], false)
  | d :: rest =>
    let r := processDetection labels min_thresh d
    let rr := processDetections labels min_thresh rest
    (r.1 ++ rr.1, r.2 || rr.2)

/-- Signals sent to the Arduino within one loop iteration (lines 154-156):
after the whole detection list is processed, a single signal string `A` is
sent when the flag is set. -/
def iterationSignals (labels : Nat → String) (min_thresh : ℚ)
    (dets : List Detection) : List String :=
  if (processDetections labels min_thresh dets).2 then ["A"] else []

/-! Main loop and cleanup (yolo_detect.py lines 113-179) -/

/-- Resource releases performed by the cleanup block (lines 172-179). -/
inductive CleanupOp where
  | capRelease
  | recorderRelease
  | destroyWindows
  | arduinoClose
deriving DecidableEq, Repr

/-- Coarse trace events of the main loop: one processed-and-displayed frame,
a printed message, a resource release, and a process exit with its status. -/
inductive Event where
  | frame
  | printMsg (s : String)
  | release (op : CleanupOp)
  | exitProc (code : Nat)
deriving DecidableEq, Repr

/-- Which control path ended the loop. -/
inductive ExitPath where
  | eosImages
  | eosStream
  | quitKey
deriving DecidableEq, Repr

/-- Configuration reaching the main loop: the classified source type, whether
recording is active, and whether the Arduino handle is non-None. -/
structure RunConfig where
  source_type : SourceType
  record : Bool
  arduinoOpen : Bool
deriving DecidableEq, Repr

/-- A capture handle exists exactly for video and camera sources
(lines 84-90 leave `cap = None` otherwise). -/
def capOpen (cfg : RunConfig) : Bool :=
  match cfg.source_type with
  | SourceType.video => true
  | SourceType.usb _ => true
  | _ => false

/-- The cleanup block (lines 172-179): release the capture if it exists,
release the recorder if recording, destroy all windows, close the Arduino
handle if it exists — each guarded, each at most once, in this order. -/
def cleanupEvents (cfg : RunConfig) : List Event :=
  (if capOpen cfg then [Event.release CleanupOp.capRelease] else []) ++
  (if cfg.record then [Event.release CleanupOp.recorderRelease] else []) ++
  [Event.release CleanupOp.destroyWindows] ++
  (if cfg.arduinoOpen then [Event.release CleanupOp.arduinoClose] else [])

/-- Loop body for image and folder sources (lines 117-121 plus the shared
iteration tail): an empty pending list prints and calls `sys.exit(0)` inside
the loop — the cleanup block after the loop never runs on this path; a quit
keypress (`quit k` at iteration `k`) breaks out to the cleanup block. -/
def loopImages (cfg : RunConfig) (quit : Nat → Bool) :
    List String → Nat → List Event × ExitPath
  | [], _ =>
    ([Event.printMsg "All images processed. Exiting.", Event.exitProc 0],
     ExitPath.eosImages)
  | _ :: rest, k =>
    if quit k then
      (Event.frame :: (cleanupEvents cfg ++ [Event.exitProc 0]), ExitPath.quitKey)
    else
      let r := loopImages cfg quit rest (k + 1)
      (Event.frame :: r.1, r.2)

/-- Loop body for video and camera sources (lines 122-126 plus the shared
iteration tail): `frames` counts the reads that still succeed; a failed read
prints and breaks to the cleanup block, as does a quit keypress. -/
def loopStream (cfg : RunConfig) (quit : Nat → Bool) :
    Nat → Nat → List Event × ExitPath
  | 0, _ =>
    (Event.printMsg "End of video/camera stream." ::
      (cleanupEvents cfg ++ [Event.exitProc 0]), ExitPath.eosStream)
  | n + 1, k =>
    if quit k then
      (Event.frame :: (cleanupEvents cfg ++ [Event.exitProc 0]), ExitPath.quitKey)
    else
      let r := loopStream cfg quit n (k + 1)
      (Event.frame :: r.1, r.2)

/-- The `while True` loop (lines 113-170) followed by the cleanup block
(lines 172-179), dispatched on the source type; `imgs` is the pending item
queue, `frames` the number of successful stream reads. -/
def runMainLoop (cfg : RunConfig) (quit : Nat → Bool) (imgs : List String)
    (frames : Nat) : List Event × ExitPath :=
  match cfg.source_type with
  | SourceType.folder => loopImages cfg quit imgs 0
  | SourceType.image => loopImages cfg quit imgs 0
  | SourceType.video => loopStream cfg quit frames 0
  | SourceType.usb _ => loopStream cfg quit frames 0

/-- Number of times a given release appears in a trace. -/
def countRelease (tr : List Event) (op : CleanupOp) : Nat :=
  (tr.filter fun e => e = Event.release op).length

/-- Spec-side expected release count for a resource: one when it was opened,
zero when it never was. -/
def expectedReleases (cfg : RunConfig) (op : CleanupOp) : Nat :=
  match op with
  | CleanupOp.capRelease => if capOpen cfg then 1 else 0
  | CleanupOp.recorderRelease => if cfg.record then 1 else 0
  | CleanupOp.destroyWindows => 1
  | CleanupOp.arduinoClose => if cfg.arduinoOpen then 1 else 0

/-! Startup validation (yolo_detect.py lines 43-81) -/

/-- Command-line inputs after parsing (lines 36-40): the threshold plays no
role in validation and is omitted. -/
structure Args where
  model_path : String
  source : String
  resolution : Option String
  record : Bool

/-- Result of the startup phase: an explicit `sys.exit(code)`, an uncaught
Python exception, or entry into the main loop with the built configuration. -/
inductive StartupResult where
  | exit (code : Nat)
  | pyError
  | started (cfg : RunConfig)
deriving DecidableEq, Repr

/-- Truthiness of `user_res` (line 69): None and the empty string are falsy. -/
def resTruthy (args : Args) : Bool :=
  match args.resolution with
  | none => false
  | some r => if r = "" then false else true

/-- The resolution string, defaulting to empty when absent. -/
def resStr (args : Args) : String := args.resolution.getD ""

/-- Embedding of line 71: replace the multiplication sign by `x`, split on
`x`, and parse exactly two integers; `none` models the uncaught
`ValueError` on any other shape. -/
def parseResolution (s : String) : Option (Int × Int) :=
  let parts := (String.mk (s.toList.map fun c => if c = '×' then 'x' else c)).splitOn "x"
  match parts with
  | [a, b] =>
    match pyIntParse a, pyIntParse b with
    | some w, some h => some (w, h)
    | _, _ => none
  | _ => none

/-- Whether a source type is a streaming source (`video` or `usb`),
as tested at line 75. -/
def sourceIsStream (st : SourceType) : Bool :=
  match st with
  | SourceType.video => true
  | SourceType.usb _ => true
  | _ => false

/-- Embedding of the startup phase in source order: model-path check
(lines 43-45), source classification (lines 51-65), resolution parsing
(lines 68-71), recording prerequisites (lines 74-80).  `arduinoOpen` records
whether the import-time serial connection succeeded (lines 13-23). -/
def startup (fs : FS) (arduinoOpen : Bool) (args : Args) : StartupResult :=
  if fs.pathExists args.model_path = false then StartupResult.exit 0
  else
    match classifySource fs args.source with
    | ClassifyResult.exitCode n => StartupResult.exit n
    | ClassifyResult.pyError => StartupResult.pyError
    | ClassifyResult.ok st =>
      if resTruthy args = true ∧ parseResolution (resStr args) = none then
        StartupResult.pyError
      else if args.record then
        if sourceIsStream st = false then StartupResult.exit 0
        else if resTruthy args = false then StartupResult.exit 0
        else StartupResult.started
          { source_type := st, record := true, arduinoOpen := arduinoOpen }
      else StartupResult.started
        { source_type := st, record := false, arduinoOpen := arduinoOpen }

/-- The startup validation failures enumerated by the specification: invalid
model path; unrecognized source (reached with a valid model path);
recording requested on a non-stream source or without a truthy resolution
(reached after classification succeeds and resolution parsing, if any,
succeeds). -/
def validationFailure (fs : FS) (args : Args) : Prop :=
  fs.pathExists args.model_path = false
  ∨ (fs.pathExists args.model_path = true
      ∧ classifySource fs args.source = ClassifyResult.exitCode 0)
  ∨ (fs.pathExists args.model_path = true
      ∧ ∃ st, classifySource fs args.source = ClassifyResult.ok st
          ∧ ¬ (resTruthy args = true ∧ parseResolution (resStr args) = none)
          ∧ args.record = true
          ∧ (sourceIsStream st = false ∨ resTruthy args = false))

/-! Directory enumeration (yolo_detect.py lines 87-88) -/

/-- One entry of the source directory, with whether it is a regular file. -/
structure DirEntry where
  name : String
  isFile : Bool
deriving DecidableEq, Repr

/-- Whether a name is hidden in the sense of `glob` (starts with a dot). -/
def hiddenName (name : String) : Bool :=
  match name.toList with
  | '.' :: _ => true
  | _ => false

/-- Model of `glob.glob(img_source + '/*')`: the directory's entries in
discovery order, excluding hidden names, returned as full paths; `glob`
matches directories as well as regular files. -/
def globStar (dir : String) (entries : List DirEntry) : List String :=
  (entries.filter fun e => !hiddenName e.name).map fun e => dir ++ "/" ++ e.name

/-- Embedding of line 88: keep the glob results whose `splitext` extension is
in the image-extension list. -/
def imgsListOf (dir : String) (entries : List DirEntry) : List String :=
  (globStar dir entries).filter fun f => img_ext_list.contains (pysplitext_ext f)

/-- Spec-side queue claimed by the specification: exactly the regular files
whose extension is in the image-extension set, in discovery order. -/
def claimedQueue (dir : String) (entries : List DirEntry) : List String :=
  (entries.filter fun e =>
    e.isFile && img_ext_list.contains (pysplitext_ext e.name)).map
      fun e => dir ++ "/" ++ e.name

/-! General lemmas about the detection loop -/

/-- Sample detection with a fixed box, used to instantiate the spec's
concrete test vectors. -/
def sampleDet (i : Nat) (c : ℚ) : Detection :=
  { xmin := 0, ymin := 20, xmax := 50, ymax := 60, classidx := i, conf := c }

/-- Drawing commands of the loop are exactly those of the detections whose
confidence strictly exceeds the threshold, in order. -/
theorem processDetections_fst (labels : Nat → String) (t : ℚ) :
    ∀ dets : List Detection,
      (processDetections labels t dets).1 =
        (dets.filter fun d => decide (t < d.conf)).flatMap fun d =>
          [DrawOp.rect d.xmin d.ymin d.xmax d.ymax (colorFor d.classidx),
           DrawOp.text (labelText (labels d.classidx) d.conf) d.xmin (d.ymin - 7)
             (colorFor d.classidx)] := by
  intro dets
  induction dets with
  | nil => rfl
  | cons d rest ih =>
    by_cases h : t < d.conf <;>
      simp [processDetections, processDetection, h, ih]

/-- The ambulance flag of the loop is the disjunction, over detections
passing the threshold, of a case-insensitive class-name match. -/
theorem processDetections_snd (labels : Nat → String) (t : ℚ) :
    ∀ dets : List Detection,
      (processDetections labels t dets).2 =
        dets.any fun d =>
          decide (t < d.conf) && decide (pyLower (labels d.classidx) = "ambulance") := by
  intro dets
  induction dets with
  | nil => rfl
  | cons d rest ih =>
    by_cases h : t < d.conf <;>
      simp [processDetections, processDetection, h, ih]

/-! Claim theorems -/

/-- C3: with an open connection, `send_signal_to_arduino` performs at most 3
write attempts with a one-second sleep after each failure, returns
immediately after the first success with no further attempt, and completes
normally (the caught exceptions never escape) even when all 3 attempts fail;
with an unavailable or closed connection it only prints a diagnostic.  The
first conjunct characterizes the full event trace for every pattern of write
outcomes. -/
theorem c3_notify_retry (o : Nat → Bool) :
    (send_signal_to_arduino ArduinoState.opened o 3 =
      (if o 0 then [SigEvent.writeAttempt true]
       else if o 1 then
         [SigEvent.writeAttempt false, SigEvent.sleepOne, SigEvent.writeAttempt true]
       else if o 2 then
         [SigEvent.writeAttempt false, SigEvent.sleepOne, SigEvent.writeAttempt false,
          SigEvent.sleepOne, SigEvent.writeAttempt true]
       else
         [SigEvent.writeAttempt false, SigEvent.sleepOne, SigEvent.writeAttempt false,
          SigEvent.sleepOne, SigEvent.writeAttempt false, SigEvent.sleepOne]))
    ∧ attemptCount (send_signal_to_arduino ArduinoState.opened o 3) ≤ 3
    ∧ send_signal_to_arduino ArduinoState.closed o 3 = [SigEvent.diagUnavailable]
    ∧ send_signal_to_arduino ArduinoState.unavailable o 3 = [SigEvent.diagUnavailable] := by
  have hchar : send_signal_to_arduino ArduinoState.opened o 3 =
      (if o 0 then [SigEvent.writeAttempt true]
       else if o 1 then
         [SigEvent.writeAttempt false, SigEvent.sleepOne, SigEvent.writeAttempt true]
       else if o 2 then
         [SigEvent.writeAttempt false, SigEvent.sleepOne, SigEvent.writeAttempt false,
          SigEvent.sleepOne, SigEvent.writeAttempt true]
       else
         [SigEvent.writeAttempt false, SigEvent.sleepOne, SigEvent.writeAttempt false,
          SigEvent.sleepOne, SigEvent.writeAttempt false, SigEvent.sleepOne]) := by
    show attemptLoop o 0 3 = _
    cases h0 : o 0 <;> cases h1 : o 1 <;> cases h2 : o 2 <;>
      simp [attemptLoop, h0, h1, h2]
  refine ⟨hchar, ?_, rfl, rfl⟩
  rw [hchar]
  cases o 0 <;> cases o 1 <;> cases o 2 <;> simp [attemptCount]

/-- C4: a rectangle and a label are drawn for a detection if and only if its
confidence strictly exceeds the threshold; detections at or below the
threshold contribute nothing.  The concrete conjuncts check the spec's test
vector: confidences 0.4, 0.5, 0.51 with threshold 0.5 draw exactly the 0.51
detection, and with threshold 0 all three are drawn. -/
theorem c4_threshold_strict :
    (∀ (labels : Nat → String) (t : ℚ) (dets : List Detection),
      (processDetections labels t dets).1 =
        (dets.filter fun d => decide (t < d.conf)).flatMap fun d =>
          [DrawOp.rect d.xmin d.ymin d.xmax d.ymax (colorFor d.classidx),
           DrawOp.text (labelText (labels d.classidx) d.conf) d.xmin (d.ymin - 7)
             (colorFor d.classidx)])
    ∧ (processDetections (fun _ => "car") (mkRat 1 2)
        [sampleDet 0 (mkRat 2 5), sampleDet 0 (mkRat 1 2), sampleDet 0 (mkRat 51 100)]).1 =
      [DrawOp.rect 0 20 50 60 (164, 120, 87),
       DrawOp.text "car: 51%" 0 13 (164, 120, 87)]
    ∧ (processDetections (fun _ => "car") 0
        [sampleDet 0 (mkRat 2 5), sampleDet 0 (mkRat 1 2), sampleDet 0 (mkRat 51 100)]).1 =
      [DrawOp.rect 0 20 50 60 (164, 120, 87),
       DrawOp.text "car: 40%" 0 13 (164, 120, 87),
       DrawOp.rect 0 20 50 60 (164, 120, 87),
       DrawOp.text "car: 50%" 0 13 (164, 120, 87),
       DrawOp.rect 0 20 50 60 (164, 120, 87),
       DrawOp.text "car: 51%" 0 13 (164, 120, 87)] := by
  refine ⟨fun labels t dets => processDetections_fst labels t dets, ?_, ?_⟩ <;>
    with_unfolding_all decide

/-- C5: the ambulance flag of a frame is true if and only if some detection
passing the threshold has class name equal to "ambulance" after lowercasing;
the concrete conjuncts check the spec's vectors with class names
car/Ambulance (true) and car/bus (false). -/
theorem c5_target_found :
    (∀ (labels : Nat → String) (t : ℚ) (dets : List Detection),
      ((processDetections labels t dets).2 = true ↔
        ∃ d ∈ dets, t < d.conf ∧ pyLower (labels d.classidx) = "ambulance"))
    ∧ (processDetections (fun i => List.getD ["car", "Ambulance"] i "") (mkRat 1 2)
        [sampleDet 0 (mkRat 9 10), sampleDet 1 (mkRat 9 10)]).2 = true
    ∧ (processDetections (fun i => List.getD ["car", "bus"] i "") (mkRat 1 2)
        [sampleDet 0 (mkRat 9 10), sampleDet 1 (mkRat 9 10)]).2 = false := by
  refine ⟨?_, by with_unfolding_all decide, by with_unfolding_all decide⟩
  intro labels t dets
  rw [processDetections_snd]
  simp [List.any_eq_true]

/-- C7: the palette has size 4 and the color assigned to a class index
depends only on the index modulo 4, so congruent indices always receive the
same color. -/
theorem c7_palette_mod :
    bbox_colors.length = 4 ∧
    ∀ i j : Nat, i % 4 = j % 4 → colorFor i = colorFor j := by
  refine ⟨rfl, ?_⟩
  intro i j h
  simp only [colorFor, bbox_colors, List.length_cons, List.length_nil]
  norm_num
  rw [h]

/-- Witness for C7 at the spec's concrete indices: 0 and 4, and 1 and 5,
get the same color. -/
theorem c7_palette_mod_witness :
    colorFor 0 = colorFor 4 ∧ colorFor 1 = colorFor 5 :=
  ⟨c7_palette_mod.2 0 4 (by decide), c7_palette_mod.2 1 5 (by decide)⟩

/-- C10: within one loop iteration at most one signal is sent, no matter how
many passing ambulance detections the frame contains; a single signal "A" is
sent exactly when some passing detection is an ambulance; the concrete
conjunct shows a frame with three passing ambulance detections still sends
one signal. -/
theorem c10_signal_once_per_frame :
    (∀ (labels : Nat → String) (t : ℚ) (dets : List Detection),
      (iterationSignals labels t dets).length ≤ 1)
    ∧ (∀ (labels : Nat → String) (t : ℚ) (dets : List Detection),
      (iterationSignals labels t dets = ["A"] ↔
        ∃ d ∈ dets, t < d.conf ∧ pyLower (labels d.classidx) = "ambulance"))
    ∧ (iterationSignals (fun _ => "ambulance") (mkRat 1 2)
        [sampleDet 0 (mkRat 9 10), sampleDet 0 (mkRat 8 10), sampleDet 0 (mkRat 7 10)]) = ["A"] := by
  refine ⟨?_, ?_, by with_unfolding_all decide⟩
  · intro labels t dets
    unfold iterationSignals
    split <;> simp
  · intro labels t dets
    unfold iterationSignals
    rw [processDetections_snd]
    constructor
    · intro h
      by_cases hb :
          (dets.any fun d =>
            decide (t < d.conf) && decide (pyLower (labels d.classidx) = "ambulance")) = true
      · simpa [List.any_eq_true] using hb
      · simp [hb] at h
    · intro h
      have hb :
          (dets.any fun d =>
            decide (t < d.conf) && decide (pyLower (labels d.classidx) = "ambulance")) = true := by
        simpa [List.any_eq_true] using h
      simp [hb]

/-- C6 counterexample: the label percentage is truncated, not rounded to the
nearest integer.  For confidence 0.567 the drawn label reads "car: 56%",
while rounding 56.7 to the nearest integer gives 57. -/
theorem c6_label_counterexample :
    (processDetections (fun _ => "car") (mkRat 1 2) [sampleDet 0 (mkRat 567 1000)]).1 =
      [DrawOp.rect 0 20 50 60 (164, 120, 87),
       DrawOp.text "car: 56%" 0 13 (164, 120, 87)]
    ∧ roundNearest (mkRat 567 1000 * 100) = 57
    ∧ ¬ ("car: 56%" = "car: " ++ toString (roundNearest (mkRat 567 1000 * 100)) ++ "%") := by
  with_unfolding_all decide

/-- C6 amended: every drawn label's text is the class name, a colon-space,
and the confidence times 100 truncated toward zero (not rounded to nearest)
followed by a percent sign, and the label sits at (xmin, ymin - 7), above
the box's top-left corner. -/
theorem c6_label_amended (labels : Nat → String) (t : ℚ) (dets : List Detection)
    (s : String) (x y : Int) (c : Nat × Nat × Nat)
    (hmem : DrawOp.text s x y c ∈ (processDetections labels t dets).1) :
    ∃ d ∈ dets, t < d.conf ∧
      s = labels d.classidx ++ ": " ++ toString (pyTrunc (d.conf * 100)) ++ "%" ∧
      x = d.xmin ∧ y = d.ymin - 7 ∧ c = colorFor d.classidx := by
  rw [processDetections_fst] at hmem
  simp only [List.mem_flatMap, List.mem_filter] at hmem
  obtain ⟨d, ⟨hd, hconf⟩, hin⟩ := hmem
  simp only [List.mem_cons, List.not_mem_nil, or_false] at hin
  rcases hin with h | h
  · exact absurd h (by simp)
  · injection h with h1 h2 h3 h4
    exact ⟨d, hd, of_decide_eq_true hconf, h1, h2, h3, h4⟩

/-- Witness for the amended C6 at the concrete counterexample detection. -/
theorem c6_label_amended_witness :
    ∃ d ∈ [sampleDet 0 (mkRat 567 1000)], mkRat 1 2 < d.conf ∧
      "car: 56%" = "car" ++ ": " ++ toString (pyTrunc (d.conf * 100)) ++ "%" ∧
      (0 : Int) = d.xmin ∧ (13 : Int) = d.ymin - 7 ∧
      ((164, 120, 87) : Nat × Nat × Nat) = colorFor d.classidx :=
  c6_label_amended (fun _ => "car") (mkRat 1 2) [sampleDet 0 (mkRat 567 1000)]
    "car: 56%" 0 13 (164, 120, 87) (by with_unfolding_all decide)

/-! Lemmas on Python integer parsing of pure digit strings -/

/-- Digits are not Python whitespace. -/
theorem isDigit_not_pyWs (c : Char) (h : c.isDigit = true) : isPyWs c = false := by
  cases hw : isPyWs c
  · rfl
  · exfalso
    simp only [isPyWs, Bool.or_eq_true, decide_eq_true_eq] at hw
    rcases hw with ((((rfl | rfl) | rfl) | rfl) | rfl) | rfl <;> exact absurd h (by decide)

/-- Dropping whitespace from an all-digit list is the identity. -/
theorem dropWhile_pyWs_of_digits (l : List Char) (h : ∀ c ∈ l, c.isDigit = true) :
    l.dropWhile isPyWs = l := by
  cases l with
  | nil => rfl
  | cons c rest =>
    have hc : isPyWs c = false := isDigit_not_pyWs c (h c (by simp))
    simp [List.dropWhile_cons, hc]

/-- Stripping whitespace from an all-digit list is the identity. -/
theorem stripPyWs_of_digits (l : List Char) (h : ∀ c ∈ l, c.isDigit = true) :
    stripPyWs l = l := by
  unfold stripPyWs
  rw [dropWhile_pyWs_of_digits l h,
    dropWhile_pyWs_of_digits l.reverse (fun c hc => h c (List.mem_reverse.mp hc)),
    List.reverse_reverse]

/-- On an all-digit tail the parser accumulates the decimal value. -/
theorem parseDigitsAux_of_digits :
    ∀ (l : List Char) (acc : Nat), (∀ c ∈ l, c.isDigit = true) →
      parseDigitsAux acc l = some (l.foldl (fun a c => a * 10 + digitVal c) acc) := by
  intro l
  induction l with
  | nil => intro acc _; rfl
  | cons c rest ih =>
    intro acc h
    have hc : c.isDigit = true := h c (by simp)
    have hcu : ¬ c = '_' := by rintro rfl; exact absurd hc (by decide)
    rw [parseDigitsAux.eq_def]
    simp only [hcu, if_false, hc, if_true, List.foldl_cons]
    exact ih _ (fun x hx => h x (by simp [hx]))

/-- On a nonempty all-digit list the parser returns the decimal value. -/
theorem parseDigits_of_digits (c : Char) (rest : List Char) (hc : c.isDigit = true)
    (h : ∀ x ∈ rest, x.isDigit = true) :
    parseDigits (c :: rest) =
      some ((c :: rest).foldl (fun a x => a * 10 + digitVal x) 0) := by
  simp only [parseDigits, hc, if_true, List.foldl_cons, Nat.zero_mul, Nat.zero_add]
  exact parseDigitsAux_of_digits rest (digitVal c) h

/-- Python `int` on a nonempty all-digit string returns its decimal value. -/
theorem pyIntParse_of_digits (c : Char) (rest : List Char) (hc : c.isDigit = true)
    (h : ∀ x ∈ rest, x.isDigit = true) :
    pyIntParse (String.mk (c :: rest)) =
      some (((c :: rest).foldl (fun a x => a * 10 + digitVal x) 0 : Nat) : Int) := by
  have hall : ∀ x ∈ c :: rest, x.isDigit = true := by
    intro x hx
    rcases List.mem_cons.mp hx with rfl | hx
    · exact hc
    · exact h x hx
  have hplus : ¬ c = '+' := by rintro rfl; exact absurd hc (by decide)
  have hminus : ¬ c = '-' := by rintro rfl; exact absurd hc (by decide)
  unfold pyIntParse
  rw [show (String.mk (c :: rest)).toList = c :: rest from rfl,
    stripPyWs_of_digits _ hall]
  simp [hplus, hminus, parseDigits_of_digits c rest hc h]

/-- C2 counterexample: classification is by substring containment of "usb"
with Python integer parsing of the tail from index 3.  The input "usb+5"
does not begin with usb-followed-by-digits, yet it is classified as a live
camera with index 5 rather than rejected; the input "usbcam" aborts with an
uncaught ValueError rather than the diagnostic configuration-error exit. -/
theorem c2_classification_counterexample :
    classifySource fs0 "usb+5" = ClassifyResult.ok (SourceType.usb 5)
    ∧ beginsWithUsbAndDigits "usb+5" = false
    ∧ classifySource fs0 "usbcam" = ClassifyResult.pyError := by decide

/-- C2 amended: for a directory the kind is folder; for a file the kind
follows the extension dispatch; otherwise, when "usb" occurs anywhere as a
substring the characters from index 3 are parsed as a Python integer
(accepting sign, whitespace and underscores) giving a live camera on
success and an uncaught ValueError on failure; when "usb" does not occur
the process exits with the diagnostic.  In particular a string that begins
with usb followed by digits is classified as a live camera with the decimal
value of those digits. -/
theorem c2_classification_amended (fs : FS) (s : String) :
    (fs.isDir s = true → classifySource fs s = ClassifyResult.ok SourceType.folder)
    ∧ (fs.isDir s = false → fs.isFile s = true →
        classifySource fs s =
          (if img_ext_list.contains (pysplitext_ext s) then ClassifyResult.ok SourceType.image
           else if vid_ext_list.contains (pysplitext_ext s) then
             ClassifyResult.ok SourceType.video
           else ClassifyResult.exitCode 0))
    ∧ (fs.isDir s = false → fs.isFile s = false → usbSubstr s = true →
        classifySource fs s =
          (match pyIntParse (pySlice3 s) with
           | some n => ClassifyResult.ok (SourceType.usb n)
           | none => ClassifyResult.pyError))
    ∧ (fs.isDir s = false → fs.isFile s = false → usbSubstr s = false →
        classifySource fs s = ClassifyResult.exitCode 0)
    ∧ (∀ rest : List Char, fs.isDir s = false → fs.isFile s = false →
        s.toList = 'u' :: 's' :: 'b' :: rest → rest ≠ [] →
        (∀ c ∈ rest, c.isDigit = true) →
        classifySource fs s = ClassifyResult.ok (SourceType.usb (pyDigitsVal (pySlice3 s)))) := by
  refine ⟨?_, ?_, ?_, ?_, ?_⟩
  · intro hd
    simp [classifySource, hd]
  · intro hd hf
    simp [classifySource, hd, hf]
  · intro hd hf hu
    simp [classifySource, hd, hf, hu]
  · intro hd hf hu
    simp [classifySource, hd, hf, hu]
  · intro rest hd hf hs hne hdig
    have husb : usbSubstr s = true := by
      unfold usbSubstr
      rw [hs]
      rfl
    obtain ⟨c, rest2, rfl⟩ : ∃ c rest2, rest = c :: rest2 :=
      match rest, hne with
      | c :: rest2, _ => ⟨c, rest2, rfl⟩
    have hslice : pySlice3 s = String.mk (c :: rest2) := by
      unfold pySlice3
      rw [hs]
      rfl
    have hparse : pyIntParse (pySlice3 s) = some (pyDigitsVal (pySlice3 s)) := by
      rw [hslice, pyIntParse_of_digits c rest2 (hdig c (by simp))
        (fun x hx => hdig x (by simp [hx]))]
      rfl
    simp [classifySource, hd, hf, husb, hparse]

/-- Witness for the amended C2: "usb12" is classified as a live camera with
the decimal value of "12". -/
theorem c2_classification_amended_witness :
    classifySource fs0 "usb12" =
      ClassifyResult.ok (SourceType.usb (pyDigitsVal (pySlice3 "usb12"))) :=
  (c2_classification_amended fs0 "usb12").2.2.2.2 ['1', '2'] rfl rfl rfl
    (by decide) (by decide)

/-! Lemmas on the main-loop traces -/

/-- Counting a release in an empty trace. -/
theorem countRelease_nil (op : CleanupOp) : countRelease [] op = 0 := rfl

/-- Counting a release in a cons trace. -/
theorem countRelease_cons (e : Event) (tr : List Event) (op : CleanupOp) :
    countRelease (e :: tr) op =
      (if e = Event.release op then 1 else 0) + countRelease tr op := by
  by_cases h : e = Event.release op <;>
    simp [countRelease, List.filter_cons, h, Nat.add_comm]

/-- Counting a release in a concatenated trace. -/
theorem countRelease_append (a b : List Event) (op : CleanupOp) :
    countRelease (a ++ b) op = countRelease a op + countRelease b op := by
  simp [countRelease, List.filter_append]

/-- The cleanup block releases each resource exactly as often as it was
opened: once for an opened resource, zero times (a guarded no-op) for one
that was never opened. -/
theorem countRelease_cleanup (cfg : RunConfig) (op : CleanupOp) :
    countRelease (cleanupEvents cfg) op = expectedReleases cfg op := by
  cases op <;> cases hcap : capOpen cfg <;> cases hrec : cfg.record <;>
    cases hard : cfg.arduinoOpen <;>
      simp [cleanupEvents, expectedReleases, countRelease, hcap, hrec, hard,
        List.filter_append, List.filter_cons]

/-- Per-path accounting for the image/folder loop: on the quit path every
resource is released per the cleanup block, on the end-of-queue path the
process exits inside the loop and nothing is released; the stream path never
occurs and every trace ends with a process exit of status 0. -/
theorem loopImages_spec (cfg : RunConfig) (quit : Nat → Bool) (op : CleanupOp) :
    ∀ (imgs : List String) (k : Nat),
      countRelease (loopImages cfg quit imgs k).1 op =
        (if (loopImages cfg quit imgs k).2 = ExitPath.eosImages then 0
         else expectedReleases cfg op)
      ∧ (loopImages cfg quit imgs k).2 ≠ ExitPath.eosStream
      ∧ ∃ pre, (loopImages cfg quit imgs k).1 = pre ++ [Event.exitProc 0] := by
  intro imgs
  induction imgs with
  | nil =>
    intro k
    refine ⟨?_, by simp [loopImages], ⟨[Event.printMsg "All images processed. Exiting."], rfl⟩⟩
    simp [loopImages, countRelease]
  | cons a rest ih =>
    intro k
    by_cases hq : quit k
    · refine ⟨?_, by simp [loopImages, hq], ?_⟩
      · simp [loopImages, hq, countRelease_cons, countRelease_append,
          countRelease_cleanup, countRelease_nil]
      · exact ⟨Event.frame :: cleanupEvents cfg, by simp [loopImages, hq]⟩
    · obtain ⟨h1, h2, pre, h3⟩ := ih (k + 1)
      refine ⟨?_, by simpa [loopImages, hq] using h2, ?_⟩
      · simpa [loopImages, hq, countRelease_cons] using h1
      · exact ⟨Event.frame :: pre, by simp [loopImages, hq, h3]⟩

/-- Per-path accounting for the video/camera loop: whether the stream ends
or the user quits, every resource is released per the cleanup block, the
image end-of-queue path never occurs, and every trace ends with a process
exit of status 0. -/
theorem loopStream_spec (cfg : RunConfig) (quit : Nat → Bool) (op : CleanupOp) :
    ∀ (frames : Nat) (k : Nat),
      countRelease (loopStream cfg quit frames k).1 op = expectedReleases cfg op
      ∧ (loopStream cfg quit frames k).2 ≠ ExitPath.eosImages
      ∧ ∃ pre, (loopStream cfg quit frames k).1 = pre ++ [Event.exitProc 0] := by
  intro frames
  induction frames with
  | zero =>
    intro k
    refine ⟨?_, by simp [loopStream], ?_⟩
    · simp [loopStream, countRelease_cons, countRelease_append, countRelease_cleanup,
        countRelease_nil]
    · exact ⟨Event.printMsg "End of video/camera stream." :: cleanupEvents cfg,
        by simp [loopStream]⟩
  | succ n ih =>
    intro k
    by_cases hq : quit k
    · refine ⟨?_, by simp [loopStream, hq], ?_⟩
      · simp [loopStream, hq, countRelease_cons, countRelease_append,
          countRelease_cleanup, countRelease_nil]
      · exact ⟨Event.frame :: cleanupEvents cfg, by simp [loopStream, hq]⟩
    · obtain ⟨h1, h2, pre, h3⟩ := ih (k + 1)
      refine ⟨?_, by simpa [loopStream, hq] using h2, ?_⟩
      · simpa [loopStream, hq, countRelease_cons] using h1
      · exact ⟨Event.frame :: pre, by simp [loopStream, hq, h3]⟩

/-- Run configuration of a folder source with no recording and a connected
Arduino, as produced by a startup on an image directory. -/
def cfgFolderArd : RunConfig :=
  { source_type := SourceType.folder, record := false, arduinoOpen := true }

/-- C1 counterexample: on the image/folder EndOfStream path the process
exits via `sys.exit(0)` inside the loop, so nothing is released even though
the Arduino connection and the display surface were opened — the run below
terminates (path `eosImages`) with zero releases, not exactly one. -/
theorem c1_cleanup_counterexample :
    (runMainLoop cfgFolderArd (fun _ => false) [] 0).2 = ExitPath.eosImages
    ∧ countRelease (runMainLoop cfgFolderArd (fun _ => false) [] 0).1
        CleanupOp.arduinoClose = 0
    ∧ countRelease (runMainLoop cfgFolderArd (fun _ => false) [] 0).1
        CleanupOp.destroyWindows = 0
    ∧ ¬ countRelease (runMainLoop cfgFolderArd (fun _ => false) [] 0).1
        CleanupOp.arduinoClose = 1 := by
  decide

/-- C1 amended: on the stream EndOfStream path and on the quit-key path,
every resource opened during startup is released exactly once before the
final exit, and a resource that was never opened is never released (the
releases are guarded, so they are no-ops rather than errors); on the
image/folder EndOfStream path the process exits inside the loop and releases
nothing.  Every terminating trace ends with a process exit of status 0. -/
theorem c1_cleanup_amended (cfg : RunConfig) (quit : Nat → Bool) (imgs : List String)
    (frames : Nat) (op : CleanupOp) :
    countRelease (runMainLoop cfg quit imgs frames).1 op =
      (if (runMainLoop cfg quit imgs frames).2 = ExitPath.eosImages then 0
       else expectedReleases cfg op)
    ∧ (∃ pre, (runMainLoop cfg quit imgs frames).1 = pre ++ [Event.exitProc 0]) := by
  rcases cfg with ⟨st, rec, ard⟩
  cases st with
  | folder =>
    obtain ⟨h1, _, h3⟩ := loopImages_spec ⟨SourceType.folder, rec, ard⟩ quit op imgs 0
    exact ⟨h1, h3⟩
  | image =>
    obtain ⟨h1, _, h3⟩ := loopImages_spec ⟨SourceType.image, rec, ard⟩ quit op imgs 0
    exact ⟨h1, h3⟩
  | video =>
    obtain ⟨h1, h2, h3⟩ := loopStream_spec ⟨SourceType.video, rec, ard⟩ quit op frames 0
    exact ⟨by simp [runMainLoop, h1, h2], h3⟩
  | usb idx =>
    obtain ⟨h1, h2, h3⟩ := loopStream_spec ⟨SourceType.usb idx, rec, ard⟩ quit op frames 0
    exact ⟨by simp [runMainLoop, h1, h2], h3⟩

/-! Lemmas on splitext over joined paths -/

/-- takeWhile over a list whose elements all satisfy the predicate, followed
by a stopping element, returns exactly the prefix. -/
theorem takeWhile_of_stop (p : Char → Bool) :
    ∀ (l1 : List Char) (c : Char) (l2 : List Char),
      (∀ x ∈ l1, p x = true) → p c = false →
      (l1 ++ c :: l2).takeWhile p = l1 := by
  intro l1
  induction l1 with
  | nil =>
    intro c l2 _ hc
    simp [List.takeWhile_cons, hc]
  | cons a t ih =>
    intro c l2 h hc
    have ha : p a = true := h a (by simp)
    simp only [List.cons_append, List.takeWhile_cons, ha, if_true]
    rw [ih c l2 (fun x hx => h x (by simp [hx])) hc]

/-- takeWhile over a list whose elements all satisfy the predicate is the
identity. -/
theorem takeWhile_of_all (p : Char → Bool) :
    ∀ l : List Char, (∀ x ∈ l, p x = true) → l.takeWhile p = l := by
  intro l
  induction l with
  | nil => intro _; rfl
  | cons a t ih =>
    intro h
    have ha : p a = true := h a (by simp)
    simp only [List.takeWhile_cons, ha, if_true]
    rw [ih (fun x hx => h x (by simp [hx]))]

/-- The extension function only looks at the basename: strings with the same
reversed-basename prefix have the same extension. -/
theorem pysplitext_ext_congr_base (s t : String)
    (h : s.toList.reverse.takeWhile (fun c => ¬ c = '/') =
      t.toList.reverse.takeWhile (fun c => ¬ c = '/')) :
    pysplitext_ext s = pysplitext_ext t := by
  unfold pysplitext_ext
  rw [h]

/-- Joining a directory and a slash-free name does not change the splitext
extension. -/
theorem pysplitext_ext_append (dir name : String)
    (h : ∀ c ∈ name.toList, ¬ c = '/') :
    pysplitext_ext (dir ++ "/" ++ name) = pysplitext_ext name := by
  apply pysplitext_ext_congr_base
  have hmemrev : ∀ x ∈ name.toList.reverse, (decide (¬ x = '/')) = true := by
    intro x hx
    simpa using h x (List.mem_reverse.mp hx)
  have hdata : (dir ++ "/" ++ name).toList = (dir.toList ++ ['/']) ++ name.toList := rfl
  rw [hdata, List.reverse_append, List.reverse_append]
  simp only [List.reverse_cons, List.reverse_nil, List.nil_append, List.append_assoc,
    List.singleton_append]
  rw [takeWhile_of_stop _ name.toList.reverse '/' dir.toList.reverse hmemrev (by decide),
    takeWhile_of_all _ name.toList.reverse hmemrev]

/-- The pending queue built at line 88 is the non-hidden directory entries
(files or directories alike) whose name's extension is in the image set, in
discovery order, joined to the directory path. -/
theorem imgsListOf_eq (dir : String) :
    ∀ entries : List DirEntry,
      (∀ e ∈ entries, ∀ c ∈ e.name.toList, ¬ c = '/') →
      imgsListOf dir entries =
        (entries.filter fun e =>
          !hiddenName e.name && img_ext_list.contains (pysplitext_ext e.name)).map
            fun e => dir ++ "/" ++ e.name := by
  intro entries
  induction entries with
  | nil => intro _; rfl
  | cons e rest ih =>
    intro h
    have hr := ih (fun x hx => h x (by simp [hx]))
    have hext : pysplitext_ext (dir ++ "/" ++ e.name) = pysplitext_ext e.name :=
      pysplitext_ext_append dir e.name (h e (by simp))
    unfold imgsListOf globStar at hr ⊢
    cases hh : hiddenName e.name <;>
      by_cases hc : pysplitext_ext e.name ∈ img_ext_list <;>
        simp [List.filter_cons, hh, hc, hext] <;>
          simpa using hr

/-- C8 counterexample: `glob` skips hidden names, so a regular file named
".c.png" — a file directly under the path whose extension is in the image
set — is absent from the pending queue, contradicting the claimed exact
characterization. -/
theorem c8_queue_counterexample :
    imgsListOf "d" [⟨".c.png", true⟩] = []
    ∧ claimedQueue "d" [⟨".c.png", true⟩] = ["d/.c.png"]
    ∧ ¬ imgsListOf "d" [⟨".c.png", true⟩] = claimedQueue "d" [⟨".c.png", true⟩] := by
  decide

/-- C8 amended: the pending queue contains exactly the non-hidden entries
(whether regular files or directories) directly under the path whose
extension is in the case-sensitive image set, in discovery order; each
iteration pops the head, and for a directory with entries a.jpg, b.txt,
c.png the loop yields exactly two frames and then the EndOfStream exit. -/
theorem c8_queue_amended :
    (∀ (dir : String) (entries : List DirEntry),
      (∀ e ∈ entries, ∀ c ∈ e.name.toList, ¬ c = '/') →
      imgsListOf dir entries =
        (entries.filter fun e =>
          !hiddenName e.name && img_ext_list.contains (pysplitext_ext e.name)).map
            fun e => dir ++ "/" ++ e.name)
    ∧ imgsListOf "d" [⟨"a.jpg", true⟩, ⟨"b.txt", true⟩, ⟨"c.png", true⟩] =
      ["d/a.jpg", "d/c.png"]
    ∧ (runMainLoop cfgFolderArd (fun _ => false)
        (imgsListOf "d" [⟨"a.jpg", true⟩, ⟨"b.txt", true⟩, ⟨"c.png", true⟩]) 0).1 =
      [Event.frame, Event.frame,
       Event.printMsg "All images processed. Exiting.", Event.exitProc 0] := by
  exact ⟨imgsListOf_eq, by decide, by decide⟩

/-- Witness for the amended C8 on a concrete directory with a visible and a
hidden image file. -/
theorem c8_queue_amended_witness :
    imgsListOf "d" [⟨"x.jpg", true⟩, ⟨".h.png", true⟩] =
      (([⟨"x.jpg", true⟩, ⟨".h.png", true⟩] : List DirEntry).filter fun e =>
        !hiddenName e.name && img_ext_list.contains (pysplitext_ext e.name)).map
          fun e => "d" ++ "/" ++ e.name :=
  c8_queue_amended.1 "d" [⟨"x.jpg", true⟩, ⟨".h.png", true⟩] (by decide)

/-- Command-line arguments with an invalid model path on the empty
filesystem. -/
def argsBadModel : Args :=
  { model_path := "m.pt", source := "x", resolution := none, record := false }

/-- C9 counterexample: the invalid-model-path failure exits before the loop,
but every validation exit in the script is `sys.exit(0)` — exit status 0,
not a nonzero status as the claim states. -/
theorem c9_exit_status_counterexample :
    startup fs0 true argsBadModel = StartupResult.exit 0
    ∧ ¬ ∃ c, startup fs0 true argsBadModel = StartupResult.exit c ∧ c ≠ 0 := by
  refine ⟨rfl, ?_⟩
  rintro ⟨c, hc, hne⟩
  have hr : startup fs0 true argsBadModel = StartupResult.exit 0 := rfl
  rw [hr] at hc
  injection hc with h
  exact hne h.symm

/-- C9 amended: every startup validation failure — invalid model path,
unrecognized source, recording requested on a non-stream source, recording
requested without a truthy resolution — makes startup return `sys.exit 0`
(exiting before the main loop starts, with exit status 0 rather than a
nonzero one). -/
theorem c9_validation_exits (fs : FS) (a : Bool) (args : Args)
    (h : validationFailure fs args) :
    startup fs a args = StartupResult.exit 0 := by
  rcases h with h | ⟨hm, hc⟩ | ⟨hm, st, hok, hres, hrec, hbad⟩
  · simp [startup, h]
  · simp [startup, hm, hc]
  · rcases hbad with hb | hb
    · simp [startup, hm, hok, hres, hrec, hb]
    · cases hstream : sourceIsStream st <;>
        simp [startup, hm, hok, hres, hrec, hb, hstream]

/-- Witness for the amended C9: a missing model path exits with status 0. -/
theorem c9_validation_exits_witness :
    startup fs0 true argsBadModel = StartupResult.exit 0 :=
  c9_validation_exits fs0 true argsBadModel (Or.inl rfl)

end AmbYolo
